import Mathlib

/-!
Shallow embedding of the VR-Website backend (src/backend/main.py): a small
FastAPI message-store service with password login, JWT session cookies and
chat messages grouped by conversation, stored via SQLAlchemy over SQLite.

Modelling conventions:
* Time is `Nat` (seconds); every call to `datetime.utcnow()` becomes an
  explicit `now` argument threaded into the operation.
* The database is `DB`: the three tables as lists kept in insertion order,
  plus the auto-increment message id counter (SQLite rowid assignment for
  an append-only table: ids are handed out monotonically).
* The JWT library (python-jose) is an external collaborator: a token is its
  claims plus a signature string; `jwtSign` models the keyed MAC, and
  `jwtDecode` accepts exactly the tokens whose signature matches the server
  key/algorithm and whose expiry has not passed, folding both failure
  causes into the single `JWTError` type the caller catches.
* passlib's bcrypt context is modelled by a deterministic
  `pwd_hash` / `pwd_verify` pair satisfying the contract the code uses:
  `pwd_verify p h` holds exactly when `h` is the stored hash of `p`.
* `raise HTTPException(status_code=401)` is `Except.error ⟨401⟩`; handlers
  return `Except HTTPException result`.
* SQLAlchemy's `ORDER BY created_at ASC` on the append-only SQLite table is
  modelled as a stable sort by `created_at` over the rows in insertion
  (= rowid) order, matching SQLite's row ordering for this query.
* SQLite does not enforce the declared `String(20)` column width and the
  pydantic `MessageCreate.role : str` field carries no length constraint,
  so the embedded store keeps role strings verbatim, as the code does.
-/

namespace VR

/-- `users` table row (class `User` in main.py). -/
structure User where
  id : Nat
  username : String
  password_hash : String
deriving DecidableEq, Repr

/-- `conversations` table row (class `Conversation` in main.py); the id is
caller-supplied via the path parameter, hence `Int`. -/
structure Conversation where
  id : Int
deriving DecidableEq, Repr

/-- `messages` table row (class `Message` in main.py). `created_at` is the
column default `datetime.utcnow`, applied at insert. -/
structure Message where
  id : Nat
  conversation_id : Int
  role : String
  content : String
  created_at : Nat
deriving DecidableEq, Repr

/-- The environment-derived configuration block at the top of main.py
(SECRET_KEY, JWT_ALGORITHM, ACCESS_TOKEN_EXPIRE_HOURS with default 1,
COOKIE_SAMESITE, COOKIE_SECURE). -/
structure Config where
  secretKey : String
  algorithm : String
  accessTokenExpireHours : Nat
  cookieSamesite : String
  cookieSecure : Bool
deriving DecidableEq, Repr

/-- JWT payload written by `login`: `{"sub": ..., "exp": ...}`. -/
structure Claims where
  sub : String
  exp : Nat
deriving DecidableEq, Repr

/-- A serialized JWT: claims plus the signature over them. -/
structure Token where
  claims : Claims
  sig : String
deriving DecidableEq, Repr

/-- Model of the jose library's keyed signature over the payload. -/
def jwtSign (key alg : String) (c : Claims) : String :=
  alg ++ "|" ++ key ++ "|" ++ c.sub ++ "|" ++ toString c.exp

/-- Model of `jwt.encode(payload, SECRET_KEY, algorithm=ALGORITHM)`. -/
def jwtEncode (key alg : String) (c : Claims) : Token :=
  ⟨c, jwtSign key alg c⟩

/-- The jose `JWTError` hierarchy as caught by `require_login`: bad
signature and expired token are both subclasses of the one caught type. -/
inductive JWTError where
  | invalidSignature
  | expiredSignature
deriving DecidableEq, Repr

/-- Model of `jwt.decode(token, SECRET_KEY, algorithms=[ALGORITHM])`:
checks the signature, then the `exp` claim against the current time
(valid while `now ≤ exp`, jose's zero-leeway convention). -/
def jwtDecode (tok : Token) (key alg : String) (now : Nat) :
    Except JWTError Claims :=
  if tok.sig ≠ jwtSign key alg tok.claims then .error .invalidSignature
  else if tok.claims.exp < now then .error .expiredSignature
  else .ok tok.claims

/-- Model of `pwd_context.hash` (bcrypt collaborator). -/
def pwd_hash (password : String) : String :=
  "bcrypt$" ++ password

/-- Model of `pwd_context.verify(password, stored_hash)`. -/
def pwd_verify (password stored : String) : Bool :=
  stored == pwd_hash password

/-- `raise HTTPException(status_code=...)` carries only the status. -/
structure HTTPException where
  status_code : Nat
deriving DecidableEq, Repr

/-- The relational store: the three tables in insertion order plus the
next auto-assigned message id (rowid counter). -/
structure DB where
  users : List User
  conversations : List Conversation
  messages : List Message
  nextMessageId : Nat
deriving DecidableEq, Repr

/-- Request body of POST /login (class `LoginRequest`). -/
structure LoginRequest where
  username : String
  password : String
deriving DecidableEq, Repr

/-- The Set-Cookie emitted by `response.set_cookie(...)` in `login`. -/
structure Cookie where
  key : String
  value : Token
  httponly : Bool
  samesite : String
  secure : Bool
  path : String
deriving DecidableEq, Repr

/-- Successful login response: the `{"status": "ok"}` body plus cookie. -/
structure LoginResponse where
  status : String
  cookie : Cookie
deriving DecidableEq, Repr

/-- Request body of POST .../messages (class `MessageCreate`): plain
strings, no length validation. -/
structure MessageCreate where
  role : String
  content : String
deriving DecidableEq, Repr

/-- One element of the GET .../messages response array. -/
structure MessageOut where
  id : Nat
  role : String
  content : String
  created_at : Nat
deriving DecidableEq, Repr

/-- Full record returned by POST .../messages. -/
structure MessageResponse where
  id : Nat
  conversation_id : Int
  role : String
  content : String
  created_at : Nat
deriving DecidableEq, Repr

/-- `require_login(session=Cookie(None))`: 401 when the cookie is absent;
otherwise decode the JWT and turn any `JWTError` into the same bare 401.
The subject claim is never inspected and no user lookup happens. -/
def require_login (session : Option Token) (cfg : Config) (now : Nat) :
    Except HTTPException Unit :=
  match session with
  | none => .error ⟨401⟩
  | some tok =>
    match jwtDecode tok cfg.secretKey cfg.algorithm now with
    | .error _ => .error ⟨401⟩
    | .ok _ => .ok ()

/-- POST /login: look up the user by username, verify the password against
the stored hash; on failure (absent user or mismatch alike) a bare 401 and
no cookie; on success issue a token with `sub` = username and
`exp = now + ACCESS_TOKEN_EXPIRE_HOURS` and set the session cookie. -/
def login (data : LoginRequest) (db : DB) (cfg : Config) (now : Nat) :
    Except HTTPException LoginResponse :=
  match db.users.find? (fun u => u.username == data.username) with
  | none => .error ⟨401⟩
  | some user =>
    if pwd_verify data.password user.password_hash then
      let token := jwtEncode cfg.secretKey cfg.algorithm
        ⟨user.username, now + cfg.accessTokenExpireHours * 3600⟩
      .ok ⟨"ok", ⟨"session", token, true, cfg.cookieSamesite,
        cfg.cookieSecure, "/"⟩⟩
    else .error ⟨401⟩

/-- Stable insertion step of the `ORDER BY created_at ASC` model: place `m`
before the first row whose timestamp is not smaller, so rows with equal
timestamps keep their original (rowid) order. -/
def insertByTime (m : Message) : List Message → List Message
  | [] => [m]
  | x :: xs =>
    if x.created_at < m.created_at then x :: insertByTime m xs
    else m :: x :: xs

/-- Stable sort by `created_at` over rows in insertion order: the model of
`ORDER BY created_at ASC` on the append-only table. -/
def sortByTime : List Message → List Message
  | [] => []
  | m :: l => insertByTime m (sortByTime l)

/-- GET /conversations/\x7bconversation_id\x7d/messages: guarded by
`require_login`; on success, all rows of the conversation ordered by
`created_at` ascending, projected to the response fields. -/
def get_messages (conversation_id : Int) (session : Option Token)
    (db : DB) (cfg : Config) (now : Nat) :
    Except HTTPException (List MessageOut) :=
  match require_login session cfg now with
  | .error e => .error e
  | .ok _ =>
    let msgs := sortByTime
      (db.messages.filter (fun m => m.conversation_id == conversation_id))
    .ok (msgs.map (fun m => ⟨m.id, m.role, m.content, m.created_at⟩))

/-- POST /conversations/\x7bconversation_id\x7d/messages (no auth guard in
the source): create the conversation row if absent (check-then-create),
then insert the message with the server-assigned id and timestamp and
return the populated record. -/
def post_message (conversation_id : Int) (message : MessageCreate)
    (db : DB) (now : Nat) : DB × MessageResponse :=
  let convs :=
    match db.conversations.find? (fun c => c.id == conversation_id) with
    | some _ => db.conversations
    | none => db.conversations ++ [⟨conversation_id⟩]
  let msg : Message :=
    ⟨db.nextMessageId, conversation_id, message.role, message.content, now⟩
  (⟨db.users, convs, db.messages ++ [msg], db.nextMessageId + 1⟩,
   ⟨msg.id, msg.conversation_id, msg.role, msg.content, msg.created_at⟩)

/-- Invariant of the messages table maintained by the auto-increment id:
ids strictly increase along insertion order and stay below the counter. -/
def DB.WF (db : DB) : Prop :=
  db.messages.Pairwise (fun a b => a.id < b.id) ∧
  ∀ m ∈ db.messages, m.id < db.nextMessageId

/-- Strict order of the response rows: creation time ascending, ties
broken by id. -/
def MsgLex (a b : Message) : Prop :=
  a.created_at < b.created_at ∨ (a.created_at = b.created_at ∧ a.id < b.id)

theorem insertByTime_perm (m : Message) (l : List Message) :
    (insertByTime m l).Perm (m :: l) := by
  induction l with
  | nil => simp [insertByTime]
  | cons x xs ih =>
    by_cases h : x.created_at < m.created_at
    · simp only [insertByTime, if_pos h]
      exact (List.Perm.cons x ih).trans (List.Perm.swap m x xs)
    · simp [insertByTime, if_neg h]

theorem sortByTime_perm : ∀ l : List Message, (sortByTime l).Perm l
  | [] => List.Perm.refl []
  | m :: l =>
    (insertByTime_perm m (sortByTime l)).trans
      (List.Perm.cons m (sortByTime_perm l))

theorem insertByTime_pairwise (m : Message) :
    ∀ l : List Message, l.Pairwise MsgLex → (∀ x ∈ l, m.id < x.id) →
      (insertByTime m l).Pairwise MsgLex
  | [], _, _ => by simp [insertByTime]
  | x :: xs, hl, hm => by
    rw [List.pairwise_cons] at hl
    by_cases h : x.created_at < m.created_at
    · simp only [insertByTime, if_pos h]
      refine List.pairwise_cons.2 ⟨?_, ?_⟩
      · intro y hy
        have : y ∈ m :: xs := (insertByTime_perm m xs).mem_iff.1 hy
        rcases List.mem_cons.1 this with rfl | hy'
        · exact Or.inl h
        · exact hl.1 y hy'
      · exact insertByTime_pairwise m xs hl.2
          (fun z hz => hm z (List.mem_cons_of_mem x hz))
    · simp only [insertByTime, if_neg h]
      have hmx : m.created_at ≤ x.created_at := Nat.le_of_not_lt h
      refine List.pairwise_cons.2 ⟨?_, List.pairwise_cons.2 hl⟩
      intro y hy
      rcases List.mem_cons.1 hy with rfl | hy'
      · rcases Nat.lt_or_ge m.created_at y.created_at with hlt | hge
        · exact Or.inl hlt
        · exact Or.inr ⟨Nat.le_antisymm hmx hge, hm y (List.mem_cons_self y xs)⟩
      · have hid : m.id < y.id := hm y (List.mem_cons_of_mem x hy')
        have hxy : x.created_at ≤ y.created_at := by
          rcases hl.1 y hy' with h1 | h1
          · exact Nat.le_of_lt h1
          · exact Nat.le_of_eq h1.1
        have hmy : m.created_at ≤ y.created_at := Nat.le_trans hmx hxy
        rcases Nat.lt_or_ge m.created_at y.created_at with hlt | hge
        · exact Or.inl hlt
        · exact Or.inr ⟨Nat.le_antisymm hmy hge, hid⟩

theorem sortByTime_pairwise :
    ∀ l : List Message, l.Pairwise (fun a b => a.id < b.id) →
      (sortByTime l).Pairwise MsgLex
  | [], _ => by simp [sortByTime]
  | m :: l, h => by
    rw [List.pairwise_cons] at h
    exact insertByTime_pairwise m (sortByTime l) (sortByTime_pairwise l h.2)
      (fun x hx => h.1 x ((sortByTime_perm l).mem_iff.1 hx))

/-- Concrete configuration used to evaluate the theorems: the defaults of
main.py (HS256, 1-hour TTL, samesite=lax, secure cookies). -/
def cfg0 : Config := ⟨"k", "HS256", 1, "lax", true⟩

/-- An empty store whose id counter starts at 1, as SQLite does. -/
def db0 : DB := ⟨[], [], [], 1⟩

/-- The bootstrap admin user with its bcrypt-hashed password. -/
def user0 : User := ⟨1, "admin", pwd_hash "secret"⟩

/-- Store holding only the admin user. -/
def db1 : DB := ⟨[user0], [], [], 1⟩

/-- A well-signed token for the admin subject expiring at time 100. -/
def tok0 : Token := jwtEncode "k" "HS256" ⟨"admin", 100⟩

/-- A token whose signature does not match the server key. -/
def badTok : Token := ⟨⟨"admin", 100⟩, "x"⟩

/-- C2: for every stored user whose password hash matches the submitted
password, POST /login returns status "ok" and sets the session cookie; the
cookie's token, verified at issue time, yields that username as subject
and an expiry equal to issue time plus the configured TTL in hours. -/
theorem login_success_sets_verifiable_cookie
    (data : LoginRequest) (db : DB) (cfg : Config) (now : Nat) (user : User)
    (hfind : db.users.find? (fun u => u.username == data.username) = some user)
    (hpw : pwd_verify data.password user.password_hash = true) :
    login data db cfg now = .ok ⟨"ok", ⟨"session",
        jwtEncode cfg.secretKey cfg.algorithm
          ⟨user.username, now + cfg.accessTokenExpireHours * 3600⟩,
        true, cfg.cookieSamesite, cfg.cookieSecure, "/"⟩⟩ ∧
    jwtDecode (jwtEncode cfg.secretKey cfg.algorithm
        ⟨user.username, now + cfg.accessTokenExpireHours * 3600⟩)
        cfg.secretKey cfg.algorithm now
      = .ok ⟨user.username, now + cfg.accessTokenExpireHours * 3600⟩ := by
  constructor
  · simp [login, hfind, hpw]
  · simp [jwtDecode, jwtEncode,
      Nat.not_lt.2 (Nat.le_add_right now (cfg.accessTokenExpireHours * 3600))]

theorem login_success_witness :
    db1.users.find? (fun u => u.username == "admin") = some user0 ∧
    pwd_verify "secret" user0.password_hash = true ∧
    login ⟨"admin", "secret"⟩ db1 cfg0 0 = .ok ⟨"ok", ⟨"session",
      jwtEncode cfg0.secretKey cfg0.algorithm
        ⟨user0.username, 0 + cfg0.accessTokenExpireHours * 3600⟩,
      true, cfg0.cookieSamesite, cfg0.cookieSecure, "/"⟩⟩ :=
  ⟨by decide, by decide,
    (login_success_sets_verifiable_cookie ⟨"admin", "secret"⟩ db1 cfg0 0 user0
      (by decide) (by decide)).1⟩

/-- C3: whenever the username is not stored or the stored hash does not
verify against the submitted password, POST /login answers with the bare
401 and never the success shape carrying the cookie; both failure causes
produce the literally identical response. -/
theorem login_invalid_credentials_unauthorized
    (data : LoginRequest) (db : DB) (cfg : Config) (now : Nat)
    (h : ∀ user, db.users.find? (fun u => u.username == data.username)
          = some user → pwd_verify data.password user.password_hash = false) :
    login data db cfg now = .error ⟨401⟩ ∧
    ∀ r, login data db cfg now ≠ .ok r := by
  have hmain : login data db cfg now = .error ⟨401⟩ := by
    cases hf : db.users.find? (fun u => u.username == data.username) with
    | none => simp [login, hf]
    | some user => simp [login, hf, h user hf]
  exact ⟨hmain, fun r hr => by rw [hmain] at hr; exact Except.noConfusion hr⟩

theorem login_invalid_credentials_witness :
    (∀ user, db1.users.find? (fun u => u.username == "admin") = some user →
      pwd_verify "wrong" user.password_hash = false) ∧
    login ⟨"admin", "wrong"⟩ db1 cfg0 0 = .error ⟨401⟩ :=
  ⟨by decide,
    (login_invalid_credentials_unauthorized ⟨"admin", "wrong"⟩ db1 cfg0 0
      (by decide)).1⟩

/-- C4: a missing session cookie and a token that fails verification (bad
signature or past expiry) all yield the same bare 401 from the guard, and
any guard failure short-circuits the protected handler: `get_messages`
returns that same 401 for every database state, its body never running. -/
theorem auth_failures_uniform_401
    (cfg : Config) (now : Nat) (tok : Token)
    (hbad : tok.sig ≠ jwtSign cfg.secretKey cfg.algorithm tok.claims ∨
      tok.claims.exp < now) :
    require_login none cfg now = .error ⟨401⟩ ∧
    require_login (some tok) cfg now = .error ⟨401⟩ ∧
    ∀ s cid db, require_login s cfg now = .error ⟨401⟩ →
      get_messages cid s db cfg now = .error ⟨401⟩ := by
  refine ⟨rfl, ?_, ?_⟩
  · rcases hbad with h | h
    · simp [require_login, jwtDecode, h]
    · by_cases hsig : tok.sig = jwtSign cfg.secretKey cfg.algorithm tok.claims
      · simp [require_login, jwtDecode, hsig, h]
      · simp [require_login, jwtDecode, hsig]
  · intro s cid db hs
    simp [get_messages, hs]

theorem auth_failures_witness :
    (badTok.sig ≠ jwtSign cfg0.secretKey cfg0.algorithm badTok.claims ∨
      badTok.claims.exp < 0) ∧
    require_login none cfg0 0 = .error ⟨401⟩ ∧
    require_login (some badTok) cfg0 0 = .error ⟨401⟩ :=
  ⟨Or.inl (by decide),
    (auth_failures_uniform_401 cfg0 0 badTok (Or.inl (by decide))).1,
    (auth_failures_uniform_401 cfg0 0 badTok (Or.inl (by decide))).2.1⟩

/-- C6: with a valid session, listing a conversation that has no messages
(including one that does not exist at all) succeeds with the empty array
rather than failing. -/
theorem listMessages_empty_for_unknown_conversation
    (cid : Int) (tok : Token) (db : DB) (cfg : Config) (now : Nat)
    (hauth : require_login (some tok) cfg now = .ok ())
    (hempty : ∀ m ∈ db.messages, m.conversation_id ≠ cid) :
    get_messages cid (some tok) db cfg now = .ok [] := by
  have hfil : db.messages.filter (fun m => m.conversation_id == cid) = [] :=
    List.filter_eq_nil_iff.2 (fun m hm => by simp [hempty m hm])
  simp [get_messages, hauth, hfil, sortByTime]

theorem listMessages_empty_witness :
    require_login (some tok0) cfg0 50 = .ok () ∧
    (∀ m ∈ db0.messages, m.conversation_id ≠ 42) ∧
    get_messages 42 (some tok0) db0 cfg0 50 = .ok [] :=
  ⟨rfl, by decide,
    listMessages_empty_for_unknown_conversation 42 tok0 db0 cfg0 50
      rfl (by decide)⟩

/-- C10: the guard accepts any token signed with the server key whose
expiry has not passed, whatever its subject: it performs no user lookup,
so a well-signed unexpired token for a subject naming no stored user still
passes and the protected route runs. -/
theorem guard_ignores_subject
    (cfg : Config) (now : Nat) (sub : String) (exp : Nat) (hexp : now ≤ exp)
    (db : DB) (_hnouser : ∀ u ∈ db.users, u.username ≠ sub) (cid : Int) :
    require_login (some (jwtEncode cfg.secretKey cfg.algorithm ⟨sub, exp⟩))
        cfg now = .ok () ∧
    (get_messages cid
        (some (jwtEncode cfg.secretKey cfg.algorithm ⟨sub, exp⟩))
        db cfg now).isOk = true := by
  have h1 : require_login
      (some (jwtEncode cfg.secretKey cfg.algorithm ⟨sub, exp⟩)) cfg now
      = .ok () := by
    simp [require_login, jwtDecode, jwtEncode, Nat.not_lt.2 hexp]
  exact ⟨h1, by simp [get_messages, h1, Except.isOk, Except.toBool]⟩

theorem guard_ignores_subject_witness :
    50 ≤ 100 ∧ (∀ u ∈ db0.users, u.username ≠ "ghost") ∧
    require_login (some (jwtEncode cfg0.secretKey cfg0.algorithm
      ⟨"ghost", 100⟩)) cfg0 50 = .ok () :=
  ⟨by decide, by decide,
    (guard_ignores_subject cfg0 50 "ghost" 100 (by decide) db0
      (by decide) 7).1⟩

/-- C7: posting twice to a fresh conversation id leaves exactly one
Conversation row with that id: the second call's check-then-create finds
the row the first call committed. -/
theorem appendMessage_twice_single_conversation
    (cid : Int) (m1 m2 : MessageCreate) (db : DB) (t1 t2 : Nat)
    (hfresh : ∀ c ∈ db.conversations, c.id ≠ cid) :
    ((post_message cid m2 (post_message cid m1 db t1).1 t2).1.conversations.filter
        (fun c => c.id == cid)).length = 1 := by
  have hnone : db.conversations.find? (fun c => c.id == cid) = none :=
    List.find?_eq_none.2 (fun c hc => by simp [hfresh c hc])
  have hfil : db.conversations.filter (fun c => c.id == cid) = [] :=
    List.filter_eq_nil_iff.2 (fun c hc => by simp [hfresh c hc])
  have h1 : (post_message cid m1 db t1).1.conversations
      = db.conversations ++ [⟨cid⟩] := by
    simp [post_message, hnone]
  have h2 : (post_message cid m2 (post_message cid m1 db t1).1 t2).1.conversations
      = db.conversations ++ [⟨cid⟩] := by
    simp [post_message, h1, List.find?_append, hnone]
  rw [h2, List.filter_append, hfil]
  simp

theorem appendMessage_twice_witness :
    (∀ c ∈ db0.conversations, c.id ≠ 5) ∧
    ((post_message 5 ⟨"user", "b"⟩ (post_message 5 ⟨"user", "a"⟩ db0 1).1
        2).1.conversations.filter (fun c => c.id == 5)).length = 1 :=
  ⟨by decide,
    appendMessage_twice_single_conversation 5 ⟨"user", "a"⟩ ⟨"user", "b"⟩
      db0 1 2 (by decide)⟩

/-- C9: appending to one conversation is invisible to every other: for a
different conversation id the read-back is unchanged, byte for byte. -/
theorem appendMessage_frame_other_conversations
    (cid cidB : Int) (hne : cid ≠ cidB) (m : MessageCreate) (db : DB)
    (t : Nat) (s : Option Token) (cfg : Config) (now : Nat) :
    get_messages cidB s (post_message cid m db t).1 cfg now
      = get_messages cidB s db cfg now := by
  have hfil : (post_message cid m db t).1.messages.filter
        (fun x => x.conversation_id == cidB)
      = db.messages.filter (fun x => x.conversation_id == cidB) := by
    simp [post_message, List.filter_append, hne]
  cases hr : require_login s cfg now with
  | error e => simp [get_messages, hr]
  | ok u => simp [get_messages, hr, hfil]

theorem appendMessage_frame_witness :
    (3 : Int) ≠ 4 ∧
    get_messages 4 (some tok0) (post_message 3 ⟨"user", "hi"⟩ db0 9).1 cfg0 50
      = get_messages 4 (some tok0) db0 cfg0 50 :=
  ⟨by decide,
    appendMessage_frame_other_conversations 3 4 (by decide) ⟨"user", "hi"⟩
      db0 9 (some tok0) cfg0 50⟩

/-- C1: appending a message and then listing the conversation (with a
valid session) yields a response in which the rows carrying the freshly
assigned id are exactly the one appended message, with the given role and
content and the server-assigned id and creation timestamp populated; the
append's own response already carries the same populated record. -/
theorem appendMessage_then_listMessages_exact
    (cid : Int) (role content : String) (db : DB) (cfg : Config)
    (t now : Nat) (tok : Token)
    (hauth : require_login (some tok) cfg now = .ok ())
    (hdb : ∀ m ∈ db.messages, m.id < db.nextMessageId) :
    (post_message cid ⟨role, content⟩ db t).2
      = ⟨db.nextMessageId, cid, role, content, t⟩ ∧
    ∃ out, get_messages cid (some tok)
        (post_message cid ⟨role, content⟩ db t).1 cfg now = .ok out ∧
      out.filter (fun r => r.id == db.nextMessageId)
        = [⟨db.nextMessageId, role, content, t⟩] := by
  refine ⟨rfl, ?_⟩
  have hget : get_messages cid (some tok)
      (post_message cid ⟨role, content⟩ db t).1 cfg now
      = .ok ((sortByTime
            ((post_message cid ⟨role, content⟩ db t).1.messages.filter
              (fun m => m.conversation_id == cid))).map
          (fun m => ⟨m.id, m.role, m.content, m.created_at⟩)) := by
    simp [get_messages, hauth]
  refine ⟨_, hget, ?_⟩
  have hF : (post_message cid ⟨role, content⟩ db t).1.messages.filter
        (fun m => m.conversation_id == cid)
      = db.messages.filter (fun m => m.conversation_id == cid)
        ++ [⟨db.nextMessageId, cid, role, content, t⟩] := by
    have hmsgs : (post_message cid ⟨role, content⟩ db t).1.messages
        = db.messages ++ [⟨db.nextMessageId, cid, role, content, t⟩] := rfl
    rw [hmsgs, List.filter_append]
    simp
  have hperm : ((sortByTime
        ((post_message cid ⟨role, content⟩ db t).1.messages.filter
          (fun m => m.conversation_id == cid))).map
        (fun m => (⟨m.id, m.role, m.content, m.created_at⟩ : MessageOut))).filter
        (fun r => r.id == db.nextMessageId)
      |>.Perm
        ((((post_message cid ⟨role, content⟩ db t).1.messages.filter
          (fun m => m.conversation_id == cid)).map
          (fun m => (⟨m.id, m.role, m.content, m.created_at⟩ : MessageOut))).filter
          (fun r => r.id == db.nextMessageId)) :=
    List.Perm.filter _ (List.Perm.map _ (sortByTime_perm _))
  have htarget : ((((post_message cid ⟨role, content⟩ db t).1.messages.filter
        (fun m => m.conversation_id == cid)).map
        (fun m => (⟨m.id, m.role, m.content, m.created_at⟩ : MessageOut))).filter
        (fun r => r.id == db.nextMessageId))
      = [⟨db.nextMessageId, role, content, t⟩] := by
    rw [hF, List.map_append, List.filter_append]
    have hold : ((db.messages.filter
          (fun m => m.conversation_id == cid)).map
          (fun m => (⟨m.id, m.role, m.content, m.created_at⟩ : MessageOut))).filter
          (fun r => r.id == db.nextMessageId) = [] := by
      refine List.filter_eq_nil_iff.2 ?_
      intro r hr
      obtain ⟨m, hm, rfl⟩ := List.mem_map.1 hr
      have hlt := hdb m (List.mem_filter.1 hm).1
      simp only [beq_iff_eq]
      omega
    rw [hold]
    simp
  exact List.perm_singleton.1 (htarget ▸ hperm)

theorem appendMessage_then_listMessages_witness :
    require_login (some tok0) cfg0 50 = .ok () ∧
    (∀ m ∈ db0.messages, m.id < db0.nextMessageId) ∧
    (post_message 1 ⟨"user", "hi"⟩ db0 5).2
      = ⟨db0.nextMessageId, 1, "user", "hi", 5⟩ ∧
    ∃ out, get_messages 1 (some tok0)
        (post_message 1 ⟨"user", "hi"⟩ db0 5).1 cfg0 50 = .ok out ∧
      out.filter (fun r => r.id == db0.nextMessageId)
        = [⟨db0.nextMessageId, "user", "hi", 5⟩] :=
  ⟨rfl, by decide,
    appendMessage_then_listMessages_exact 1 "user" "hi" db0 cfg0 5 50 tok0
      rfl (by decide)⟩

/-- C5: with a valid session, the listing holds exactly the conversation's
rows (a permutation of the filtered table) and is ordered by creation time
ascending with ties broken by the auto-assigned id, i.e. by insertion
order, given the table's id invariant. -/
theorem listMessages_sorted_by_time_then_id
    (cid : Int) (tok : Token) (db : DB) (cfg : Config) (now : Nat)
    (hauth : require_login (some tok) cfg now = .ok ())
    (hdb : db.messages.Pairwise (fun a b => a.id < b.id)) :
    ∃ out, get_messages cid (some tok) db cfg now = .ok out ∧
      out.Perm ((db.messages.filter
        (fun m => m.conversation_id == cid)).map
        (fun m => ⟨m.id, m.role, m.content, m.created_at⟩)) ∧
      out.Pairwise (fun a b => a.created_at < b.created_at ∨
        (a.created_at = b.created_at ∧ a.id < b.id)) := by
  have hget : get_messages cid (some tok) db cfg now
      = .ok ((sortByTime (db.messages.filter
            (fun m => m.conversation_id == cid))).map
          (fun m => ⟨m.id, m.role, m.content, m.created_at⟩)) := by
    simp [get_messages, hauth]
  refine ⟨_, hget, ?_, ?_⟩
  · exact List.Perm.map _ (sortByTime_perm _)
  · rw [List.pairwise_map]
    exact (sortByTime_pairwise _ (List.Pairwise.filter _ hdb)).imp
      (fun h => h)

theorem listMessages_sorted_witness :
    require_login (some tok0) cfg0 50 = .ok () ∧
    db0.messages.Pairwise (fun a b => a.id < b.id) ∧
    ∃ out, get_messages 8 (some tok0) db0 cfg0 50 = .ok out ∧
      out.Perm ((db0.messages.filter
        (fun m => m.conversation_id == 8)).map
        (fun m => ⟨m.id, m.role, m.content, m.created_at⟩)) ∧
      out.Pairwise (fun a b => a.created_at < b.created_at ∨
        (a.created_at = b.created_at ∧ a.id < b.id)) :=
  ⟨rfl, by decide,
    listMessages_sorted_by_time_then_id 8 tok0 db0 cfg0 50 rfl (by decide)⟩

/-- C8: the spec's bound of at most 20 characters for a stored role fails
on the code: pydantic's `MessageCreate.role` carries no length constraint
and the SQLite backend does not enforce the declared `String(20)` column
width, so a 21-character role is accepted and stored verbatim. -/
theorem role_length_limit_not_enforced :
    (post_message 1 ⟨"aaaaaaaaaaaaaaaaaaaaa", "hi"⟩ db0 0).2.role.length = 21 ∧
    (⟨1, 1, "aaaaaaaaaaaaaaaaaaaaa", "hi", 0⟩ : Message) ∈
      (post_message 1 ⟨"aaaaaaaaaaaaaaaaaaaaa", "hi"⟩ db0 0).1.messages :=
  ⟨rfl, by decide⟩

end VR
